import Mathlib

/-!
Shallow embedding of `src/server/tools_networks.py` from the
cisco-meraki-mcp-server repository, together with theorems settling the
specification claims about its tool handlers.

The module is a thin MCP tool layer: six handlers, each forwarding one call
to a Meraki API client.  Two of them (`get_network_devices`,
`get_network_clients`) format the client's answer as Markdown inside a
`try`/`except` block; the other four forward the raw result and let any
exception escape.

Modelling choices:
* Python values that flow through this module are modelled by `PyValue`
  (`None`, strings, integers, lists, dicts).  Dicts are association lists;
  the first binding of a key wins, matching Python's unique-key dicts.
* A Python function call either returns a value or raises; this is
  `Except PyErr α`.  The `try`/`except Exception` block of the listing
  handlers becomes a `match` that maps every `.error` to the `.ok` error
  string, exactly as the `except` clause does.
* The Meraki client is external; it is modelled as a behaviour function
  from the call made (method plus arguments) to the raised/returned
  outcome.  Each handler additionally reports the list of client calls it
  performed, so that "calls the client exactly once with exactly these
  arguments" is a provable statement.
* The module-level globals `app = None` / `meraki_client = None` and
  `register_network_tools` become an explicit `RegistryState` record and a
  state-transforming function.
-/

/-- Python values handled by the tool module: `None`, `str`, `int`,
`list`, and `dict` (as an association list from string keys). -/
inductive PyValue where
  | none : PyValue
  | str : String → PyValue
  | int : Int → PyValue
  | list : List PyValue → PyValue
  | dict : List (String × PyValue) → PyValue

/-- A raised Python exception, reduced to its `str(e)` message, which is
all the listing handlers consume of it. -/
structure PyErr where
  msg : String

/-- Python truthiness (`bool(v)`): `None` is falsy, strings/lists/dicts are
truthy iff non-empty, integers truthy iff non-zero. -/
def pyTruthy : PyValue → Bool
  | PyValue.none => false
  | PyValue.str s => s ≠ ""
  | PyValue.int n => n ≠ 0
  | PyValue.list xs => !xs.isEmpty
  | PyValue.dict d => !d.isEmpty

/-- Python type name of a value, as it appears in error messages. -/
def pyTypeName : PyValue → String
  | PyValue.none => "NoneType"
  | PyValue.str _ => "str"
  | PyValue.int _ => "int"
  | PyValue.list _ => "list"
  | PyValue.dict _ => "dict"

mutual

/-- Python `repr(v)`.  String `repr` is simplified: embedded quotes are not
escaped (no claim depends on `repr` of a string containing a quote). -/
def pyRepr : PyValue → String
  | PyValue.none => "None"
  | PyValue.str s => "'" ++ s ++ "'"
  | PyValue.int n => toString n
  | PyValue.list xs => "[" ++ pyReprList xs ++ "]"
  | PyValue.dict d => "\x7b" ++ pyReprDict d ++ "\x7d"

/-- Comma-separated `repr`s of list elements. -/
def pyReprList : List PyValue → String
  | [] => ""
  | [x] => pyRepr x
  | x :: xs => pyRepr x ++ ", " ++ pyReprList xs

/-- Comma-separated `'key': repr(value)` entries of a dict. -/
def pyReprDict : List (String × PyValue) → String
  | [] => ""
  | [(k, v)] => "'" ++ k ++ "': " ++ pyRepr v
  | (k, v) :: xs => "'" ++ k ++ "': " ++ pyRepr v ++ ", " ++ pyReprDict xs

end

/-- Python `str(v)`, as used by f-string interpolation. -/
def pyStr : PyValue → String
  | PyValue.none => "None"
  | PyValue.str s => s
  | PyValue.int n => toString n
  | PyValue.list xs => "[" ++ pyReprList xs ++ "]"
  | PyValue.dict d => "\x7b" ++ pyReprDict d ++ "\x7d"

/-- A Python dict value restricted to this module's use: string keys. -/
abbrev PyDict := List (String × PyValue)

/-- Python `d.get(key, default)`: the value of the first binding of `key`
when present (even when that value is `None`), otherwise `default`. -/
def dictGet (d : PyDict) (key : String) (dflt : PyValue) : PyValue :=
  match d.find? (fun p => p.1 == key) with
  | some p => p.2
  | Option.none => dflt

/-- Python iteration `for x in v`: lists yield their elements, dicts their
keys, strings their characters; other values raise `TypeError`. -/
def pyIter : PyValue → Except PyErr (List PyValue)
  | PyValue.list xs => Except.ok xs
  | PyValue.dict d => Except.ok (d.map (fun p => PyValue.str p.1))
  | PyValue.str s => Except.ok (s.data.map (fun c => PyValue.str (String.mk [c])))
  | v => Except.error ⟨"'" ++ pyTypeName v ++ "' object is not iterable"⟩

/-- The `AttributeError` raised by `v.get(...)` when `v` is not a dict. -/
def noGetAttrErr (v : PyValue) : PyErr :=
  ⟨"'" ++ pyTypeName v ++ "' object has no attribute 'get'"⟩

/-- One call made to the Meraki client: the method name and its arguments,
mirroring the six `meraki_client.<method>(...)` call sites. -/
inductive ClientCall where
  | get_network (network_id : String)
  | update_network (network_id : String) (name : PyValue) (tags : PyValue)
  | get_network_devices (network_id : String)
  | get_network_clients (network_id : String)
  | create_network (organization_id : String) (name : String) (type : String)
  | delete_network (network_id : String)

/-- Behaviour of the external Meraki client: for each call, either the
returned value or the raised exception. -/
abbrev ClientBehavior := ClientCall → Except PyErr PyValue

/-! Tool handlers.  Each handler returns the list of client calls it made
together with its outcome (`.ok` a returned value, `.error` a raised
exception that escapes to the host). -/

/-- Handler `get_network(network_id)`: `return meraki_client.get_network(network_id)`. -/
def get_network (client : ClientBehavior) (network_id : String) :
    List ClientCall × Except PyErr PyValue :=
  ([ClientCall.get_network network_id], client (ClientCall.get_network network_id))

/-- Handler `update_network(network_id, name=None, tags=None)` applied to
explicit `name` and `tags` arguments:
`return meraki_client.update_network(network_id, name, tags)`. -/
def update_network (client : ClientBehavior) (network_id : String)
    (name : PyValue) (tags : PyValue) : List ClientCall × Except PyErr PyValue :=
  ([ClientCall.update_network network_id name tags],
   client (ClientCall.update_network network_id name tags))

/-- Invocation of `update_network` with `name` and `tags` not supplied by
the caller: Python fills in the declared defaults `name=None, tags=None`. -/
def update_network_default (client : ClientBehavior) (network_id : String) :
    List ClientCall × Except PyErr PyValue :=
  update_network client network_id PyValue.none PyValue.none

/-- Handler `create_network(organization_id, name, type="wireless")` applied
to an explicit `type` argument:
`return meraki_client.create_network(organization_id, name, type)`. -/
def create_network (client : ClientBehavior) (organization_id : String)
    (name : String) (type : String) : List ClientCall × Except PyErr PyValue :=
  ([ClientCall.create_network organization_id name type],
   client (ClientCall.create_network organization_id name type))

/-- Invocation of `create_network` with `type` not supplied by the caller:
Python fills in the declared default `type="wireless"`. -/
def create_network_default (client : ClientBehavior) (organization_id : String)
    (name : String) : List ClientCall × Except PyErr PyValue :=
  create_network client organization_id name "wireless"

/-- Handler `delete_network(network_id)`: `return meraki_client.delete_network(network_id)`. -/
def delete_network (client : ClientBehavior) (network_id : String) :
    List ClientCall × Except PyErr PyValue :=
  ([ClientCall.delete_network network_id], client (ClientCall.delete_network network_id))

/-- Formatting of one device inside the `for device in devices` loop of
`get_network_devices`: the five `result +=` lines, the conditional location
and address lines, and the trailing blank line.  `device.get` on a non-dict
raises `AttributeError`. -/
def formatDeviceBlock (device : PyValue) : Except PyErr String :=
  match device with
  | PyValue.dict d =>
    let line1 := "- **" ++ pyStr (dictGet d "name" (PyValue.str "Unnamed")) ++
      "** (Model: " ++ pyStr (dictGet d "model" (PyValue.str "Unknown")) ++ ")\n"
    let line2 := "  - Serial: `" ++ pyStr (dictGet d "serial" (PyValue.str "Unknown")) ++ "`\n"
    let line3 := "  - MAC: `" ++ pyStr (dictGet d "mac" (PyValue.str "Unknown")) ++ "`\n"
    let line4 := "  - Status: " ++ pyStr (dictGet d "status" (PyValue.str "Unknown")) ++ "\n"
    let lat := dictGet d "lat" PyValue.none
    let lng := dictGet d "lng" PyValue.none
    let address := dictGet d "address" PyValue.none
    let locLine := if pyTruthy lat && pyTruthy lng then
        "  - Location: (" ++ pyStr lat ++ ", " ++ pyStr lng ++ ")\n" else ""
    let addrLine := if pyTruthy address then "  - Address: " ++ pyStr address ++ "\n" else ""
    Except.ok (line1 ++ line2 ++ line3 ++ line4 ++ locLine ++ addrLine ++ "\n")
  | v => Except.error (noGetAttrErr v)

/-- The whole device loop: concatenates the per-device blocks, propagating
the first raised exception (the half-built string is discarded). -/
def formatDevices : List PyValue → Except PyErr String
  | [] => Except.ok ""
  | d :: ds =>
    match formatDeviceBlock d with
    | Except.error e => Except.error e
    | Except.ok s =>
      match formatDevices ds with
      | Except.error e => Except.error e
      | Except.ok rest => Except.ok (s ++ rest)

/-- The `try` block of `get_network_devices`: fetch the devices, return the
empty sentinel when they are falsy, otherwise the header plus the formatted
blocks.  Any `.error` is an exception raised inside the `try` block. -/
def get_network_devices_body (client : ClientBehavior) (network_id : String) :
    Except PyErr String :=
  match client (ClientCall.get_network_devices network_id) with
  | Except.error e => Except.error e
  | Except.ok devices =>
    if !pyTruthy devices then
      Except.ok ("No devices found for network " ++ network_id ++ ".")
    else
      match pyIter devices with
      | Except.error e => Except.error e
      | Except.ok ds =>
        match formatDevices ds with
        | Except.error e => Except.error e
        | Except.ok s =>
          Except.ok ("# Devices in Network (" ++ network_id ++ ")\n\n" ++ s)

/-- Handler `get_network_devices(network_id)`: the `try` block, with the
`except Exception as e` clause turning every raised exception into the
returned string `f"Failed to list devices for network {network_id}: {str(e)}"`. -/
def get_network_devices (client : ClientBehavior) (network_id : String) :
    List ClientCall × Except PyErr PyValue :=
  ([ClientCall.get_network_devices network_id],
   match get_network_devices_body client network_id with
   | Except.ok s => Except.ok (PyValue.str s)
   | Except.error e =>
     Except.ok (PyValue.str
       ("Failed to list devices for network " ++ network_id ++ ": " ++ e.msg)))

/-- Formatting of one client inside the `for client in clients` loop of
`get_network_clients`: the five `result +=` lines, the conditional usage
line, and the trailing blank line.  `.get` on a non-dict record, or on a
truthy non-dict `usage` value, raises `AttributeError`. -/
def formatClientBlock (rec : PyValue) : Except PyErr String :=
  match rec with
  | PyValue.dict c =>
    let line1 := "- **" ++ pyStr (dictGet c "description" (PyValue.str "Unknown Device")) ++ "**\n"
    let line2 := "  - MAC: `" ++ pyStr (dictGet c "mac" (PyValue.str "Unknown")) ++ "`\n"
    let line3 := "  - IP: `" ++ pyStr (dictGet c "ip" (PyValue.str "Unknown")) ++ "`\n"
    let line4 := "  - VLAN: " ++ pyStr (dictGet c "vlan" (PyValue.str "Unknown")) ++ "\n"
    let line5 := "  - Connection: " ++ pyStr (dictGet c "status" (PyValue.str "Unknown")) ++ "\n"
    let usage := dictGet c "usage" PyValue.none
    if pyTruthy usage then
      match usage with
      | PyValue.dict u =>
        Except.ok (line1 ++ line2 ++ line3 ++ line4 ++ line5 ++
          ("  - Usage: " ++ pyStr (dictGet u "sent" (PyValue.int 0)) ++ " sent, " ++
           pyStr (dictGet u "recv" (PyValue.int 0)) ++ " received\n") ++ "\n")
      | v => Except.error (noGetAttrErr v)
    else
      Except.ok (line1 ++ line2 ++ line3 ++ line4 ++ line5 ++ "\n")
  | v => Except.error (noGetAttrErr v)

/-- The whole client loop, as `formatDevices` for the device loop. -/
def formatClients : List PyValue → Except PyErr String
  | [] => Except.ok ""
  | c :: cs =>
    match formatClientBlock c with
    | Except.error e => Except.error e
    | Except.ok s =>
      match formatClients cs with
      | Except.error e => Except.error e
      | Except.ok rest => Except.ok (s ++ rest)

/-- The `try` block of `get_network_clients`. -/
def get_network_clients_body (client : ClientBehavior) (network_id : String) :
    Except PyErr String :=
  match client (ClientCall.get_network_clients network_id) with
  | Except.error e => Except.error e
  | Except.ok clients =>
    if !pyTruthy clients then
      Except.ok ("No clients found for network " ++ network_id ++ ".")
    else
      match pyIter clients with
      | Except.error e => Except.error e
      | Except.ok cs =>
        match formatClients cs with
        | Except.error e => Except.error e
        | Except.ok s =>
          Except.ok ("# Clients in Network (" ++ network_id ++ ")\n\n" ++ s)

/-- Handler `get_network_clients(network_id)`: the `try` block with the
`except Exception as e` clause turning every raised exception into
`f"Failed to list clients for network {network_id}: {str(e)}"`. -/
def get_network_clients (client : ClientBehavior) (network_id : String) :
    List ClientCall × Except PyErr PyValue :=
  ([ClientCall.get_network_clients network_id],
   match get_network_clients_body client network_id with
   | Except.ok s => Except.ok (PyValue.str s)
   | Except.error e =>
     Except.ok (PyValue.str
       ("Failed to list clients for network " ++ network_id ++ ": " ++ e.msg)))

/-! Registration.  The module keeps two process-wide globals, both `None`
at import time; `register_network_tools` assigns both and registers the
handlers, and each handler closure reads `meraki_client` at call time. -/

/-- The module-level globals of `tools_networks.py`: `app` and
`meraki_client`, each `None` until `register_network_tools` assigns it.
`App` is the opaque type of the external MCP host object. -/
structure RegistryState (App : Type) where
  app : Option App
  meraki_client : Option ClientBehavior

/-- The globals as they stand at import time: `app = None`,
`meraki_client = None`. -/
def initialRegistryState (App : Type) : RegistryState App :=
  ⟨Option.none, Option.none⟩

/-- The `(name, description)` pairs passed to `app.tool` by
`register_network_tool_handlers`, in registration order. -/
def network_tool_registrations : List (String × String) :=
  [("get_network", "Get details about a specific Meraki network"),
   ("update_network", "Update a Meraki network"),
   ("get_network_devices", "List devices in a Meraki network"),
   ("get_network_clients", "List clients in a Meraki network"),
   ("create_network", "Create a new Meraki network in an organization"),
   ("delete_network", "Delete a Meraki network")]

/-- `register_network_tools(mcp_app, meraki)`: overwrites both globals with
the given references (then re-registers the handlers with the new `app`);
it raises nothing and keeps no trace of previous values. -/
def register_network_tools {App : Type} (mcp_app : App) (meraki : ClientBehavior)
    (_s : RegistryState App) : RegistryState App :=
  ⟨some mcp_app, some meraki⟩

/-- An invocation of one of the six registered tools, with its arguments.
The shape coincides with `ClientCall` because each handler forwards its
arguments to the like-named client method. -/
abbrev ToolInvocation := ClientCall

/-- Runs the handler selected by the invocation against a given client. -/
def dispatch (client : ClientBehavior) : ToolInvocation → List ClientCall × Except PyErr PyValue
  | ClientCall.get_network nid => get_network client nid
  | ClientCall.update_network nid name tags => update_network client nid name tags
  | ClientCall.get_network_devices nid => get_network_devices client nid
  | ClientCall.get_network_clients nid => get_network_clients client nid
  | ClientCall.create_network oid name ty => create_network client oid name ty
  | ClientCall.delete_network nid => delete_network client nid

/-- The method name a `ClientCall` accesses on the client object. -/
def methodName : ClientCall → String
  | ClientCall.get_network _ => "get_network"
  | ClientCall.update_network _ _ _ => "update_network"
  | ClientCall.get_network_devices _ => "get_network_devices"
  | ClientCall.get_network_clients _ => "get_network_clients"
  | ClientCall.create_network _ _ _ => "create_network"
  | ClientCall.delete_network _ => "delete_network"

/-- Behaviour of the global `meraki_client` while it is still `None`: every
method access raises `AttributeError`, which is what
`None.<method>(...)` does in Python. -/
def noneClient : ClientBehavior :=
  fun c => Except.error ⟨"'NoneType' object has no attribute '" ++ methodName c ++ "'"⟩

/-- Invoking a registered tool on the current global state: the handler
closure reads `meraki_client` at call time. -/
def invoke_tool {App : Type} (s : RegistryState App) (t : ToolInvocation) :
    List ClientCall × Except PyErr PyValue :=
  dispatch (Option.getD s.meraki_client noneClient) t

/-- A client behaviour that answers every method call with the same value,
never raising. -/
def constClient (v : PyValue) : ClientBehavior :=
  fun _ => Except.ok v

/-! Specification-side formatters.  The next definitions follow the wording
of the specification's "Formatting rules" section, to be compared with the
formatter embedded from the source. -/

/-- Concatenation of a list of strings, in order, with no separator. -/
def joinAll : List String → String
  | [] => ""
  | s :: rest => s ++ joinAll rest

/-- The dict entries of a value that is a dict, `[]` otherwise. -/
def pyAsDict : PyValue → PyDict
  | PyValue.dict d => d
  | _ => []

/-- Whether a value is a dict (has the `.get` attribute used here). -/
def pyIsDict : PyValue → Bool
  | PyValue.dict _ => true
  | _ => false

/-- One device block as the specification describes it: a bold name
(fallback "Unnamed") and model (fallback "Unknown") on one line; serial and
MAC on indented lines as inline code spans (fallback "Unknown" each); a
status line (fallback "Unknown"); a location line emitted only when both
lat and lng are truthy; an address line emitted only when address is
truthy; one blank line ending the block. -/
def specDeviceBlock (d : PyDict) : String :=
  "- **" ++ pyStr (dictGet d "name" (PyValue.str "Unnamed")) ++
    "** (Model: " ++ pyStr (dictGet d "model" (PyValue.str "Unknown")) ++ ")\n" ++
  ("  - Serial: `" ++ pyStr (dictGet d "serial" (PyValue.str "Unknown")) ++ "`\n") ++
  ("  - MAC: `" ++ pyStr (dictGet d "mac" (PyValue.str "Unknown")) ++ "`\n") ++
  ("  - Status: " ++ pyStr (dictGet d "status" (PyValue.str "Unknown")) ++ "\n") ++
  (if pyTruthy (dictGet d "lat" PyValue.none) && pyTruthy (dictGet d "lng" PyValue.none) then
     "  - Location: (" ++ pyStr (dictGet d "lat" PyValue.none) ++ ", " ++
       pyStr (dictGet d "lng" PyValue.none) ++ ")\n"
   else "") ++
  (if pyTruthy (dictGet d "address" PyValue.none) then
     "  - Address: " ++ pyStr (dictGet d "address" PyValue.none) ++ "\n"
   else "") ++
  "\n"

/-- One client block as the specification describes it: a bold description
(fallback "Unknown Device"); MAC and IP as inline code (fallback "Unknown"
each); a VLAN line (fallback "Unknown"); a connection status line (fallback
"Unknown"); a usage line `sent sent, recv received` emitted only when a
(truthy) usage object is present, with missing `sent`/`recv` defaulting to
0; one blank line ending the block. -/
def specClientBlock (c : PyDict) : String :=
  "- **" ++ pyStr (dictGet c "description" (PyValue.str "Unknown Device")) ++ "**\n" ++
  ("  - MAC: `" ++ pyStr (dictGet c "mac" (PyValue.str "Unknown")) ++ "`\n") ++
  ("  - IP: `" ++ pyStr (dictGet c "ip" (PyValue.str "Unknown")) ++ "`\n") ++
  ("  - VLAN: " ++ pyStr (dictGet c "vlan" (PyValue.str "Unknown")) ++ "\n") ++
  ("  - Connection: " ++ pyStr (dictGet c "status" (PyValue.str "Unknown")) ++ "\n") ++
  (if pyTruthy (dictGet c "usage" PyValue.none) then
     "  - Usage: " ++ pyStr (dictGet (pyAsDict (dictGet c "usage" PyValue.none)) "sent" (PyValue.int 0)) ++
       " sent, " ++ pyStr (dictGet (pyAsDict (dictGet c "usage" PyValue.none)) "recv" (PyValue.int 0)) ++
       " received\n"
   else "") ++
  "\n"

/-- A client record is usage-well-formed when its `usage` value, if truthy,
is a dict (on a truthy non-dict `usage` the source raises instead of
formatting). -/
def usageWF (c : PyDict) : Bool :=
  match dictGet c "usage" PyValue.none with
  | PyValue.dict _ => true
  | u => !pyTruthy u

theorem formatDeviceBlock_dict (d : PyDict) :
    formatDeviceBlock (PyValue.dict d) = Except.ok (specDeviceBlock d) := rfl

theorem formatDevices_dict_map (ds : List PyDict) :
    formatDevices (ds.map PyValue.dict) = Except.ok (joinAll (ds.map specDeviceBlock)) := by
  induction ds with
  | nil => rfl
  | cons d rest ih =>
    simp [formatDevices, formatDeviceBlock_dict, ih, joinAll]

theorem formatClientBlock_dict (c : PyDict) (h : usageWF c = true) :
    formatClientBlock (PyValue.dict c) = Except.ok (specClientBlock c) := by
  unfold usageWF at h
  unfold formatClientBlock specClientBlock
  cases hu : dictGet c "usage" PyValue.none with
  | dict u =>
    by_cases ht : pyTruthy (PyValue.dict u) = true
    · simp [hu, ht, pyAsDict]
    · simp [hu, ht, String.append_empty]
  | none => simp [hu, pyTruthy, String.append_empty]
  | str s =>
    rw [hu] at h
    simp only [Bool.not_eq_true'] at h
    simp [hu, h, String.append_empty]
  | int n =>
    rw [hu] at h
    simp only [Bool.not_eq_true'] at h
    simp [hu, h, String.append_empty]
  | list xs =>
    rw [hu] at h
    simp only [Bool.not_eq_true'] at h
    simp [hu, h, String.append_empty]

theorem formatClients_dict_map (cs : List PyDict) (h : ∀ c ∈ cs, usageWF c = true) :
    formatClients (cs.map PyValue.dict) = Except.ok (joinAll (cs.map specClientBlock)) := by
  induction cs with
  | nil => rfl
  | cons c rest ih =>
    have hc : usageWF c = true := h c (List.mem_cons_self c rest)
    have hrest : ∀ x ∈ rest, usageWF x = true := fun x hx => h x (List.mem_cons_of_mem c hx)
    simp [formatClients, formatClientBlock_dict c hc, ih hrest, joinAll]

/-- A client behaviour whose every method call raises an exception with
message "boom". -/
def failClient : ClientBehavior :=
  fun _ => Except.error ⟨"boom"⟩

/-- C2: for every network_id, the `get_network` tool calls
`client.get_network` exactly once (its call trace is the single call
carrying exactly that network_id) and returns the client's result
unmodified. -/
theorem get_network_forwards_unmodified :
    ∀ (client : ClientBehavior) (network_id : String),
      get_network client network_id =
        ([ClientCall.get_network network_id],
         client (ClientCall.get_network network_id)) :=
  fun _ _ => rfl

/-- C3: whenever the corresponding client method raises, each of
`get_network`, `update_network`, `create_network` and `delete_network`
propagates the exception unmodified (its outcome is that very `.error`,
after the one client call, with no other result produced). -/
theorem crud_handlers_propagate_errors :
    ∀ (client : ClientBehavior) (e : PyErr),
      (∀ network_id, client (ClientCall.get_network network_id) = Except.error e →
        get_network client network_id =
          ([ClientCall.get_network network_id], Except.error e)) ∧
      (∀ network_id name tags,
        client (ClientCall.update_network network_id name tags) = Except.error e →
        update_network client network_id name tags =
          ([ClientCall.update_network network_id name tags], Except.error e)) ∧
      (∀ organization_id name ty,
        client (ClientCall.create_network organization_id name ty) = Except.error e →
        create_network client organization_id name ty =
          ([ClientCall.create_network organization_id name ty], Except.error e)) ∧
      (∀ network_id, client (ClientCall.delete_network network_id) = Except.error e →
        delete_network client network_id =
          ([ClientCall.delete_network network_id], Except.error e)) :=
  fun client e =>
    ⟨fun nid h => by simp [get_network, h],
     fun nid name tags h => by simp [update_network, h],
     fun oid name ty h => by simp [create_network, h],
     fun nid h => by simp [delete_network, h]⟩

/-- Witness for C3: against the always-raising client, `get_network`
surfaces the raised exception itself. -/
theorem crud_handlers_propagate_errors_witness :
    get_network failClient "N_1" =
      ([ClientCall.get_network "N_1"], Except.error ⟨"boom"⟩) :=
  (crud_handlers_propagate_errors failClient ⟨"boom"⟩).1 "N_1" rfl

/-- C1: for every client behaviour and network_id, each listing handler
returns a string (it never lets an exception escape), and whenever its
`try` block raises, the returned string is exactly the "Failed to list
devices for network {id}: {str(e)}" message (respectively the clients
equivalent), which begins with the documented prefix. -/
theorem listing_handlers_catch_all :
    ∀ (client : ClientBehavior) (network_id : String),
      (∃ s, (get_network_devices client network_id).2 = Except.ok (PyValue.str s)) ∧
      (∃ s, (get_network_clients client network_id).2 = Except.ok (PyValue.str s)) ∧
      (∀ e, get_network_devices_body client network_id = Except.error e →
        (get_network_devices client network_id).2 =
          Except.ok (PyValue.str
            ("Failed to list devices for network " ++ network_id ++ ": " ++ e.msg))) ∧
      (∀ e, get_network_clients_body client network_id = Except.error e →
        (get_network_clients client network_id).2 =
          Except.ok (PyValue.str
            ("Failed to list clients for network " ++ network_id ++ ": " ++ e.msg))) := by
  intro client network_id
  refine ⟨?_, ?_, ?_, ?_⟩
  · cases hb : get_network_devices_body client network_id with
    | ok s => exact ⟨s, by simp [get_network_devices, hb]⟩
    | error e =>
      exact ⟨"Failed to list devices for network " ++ network_id ++ ": " ++ e.msg,
        by simp [get_network_devices, hb]⟩
  · cases hb : get_network_clients_body client network_id with
    | ok s => exact ⟨s, by simp [get_network_clients, hb]⟩
    | error e =>
      exact ⟨"Failed to list clients for network " ++ network_id ++ ": " ++ e.msg,
        by simp [get_network_clients, hb]⟩
  · intro e hb
    simp [get_network_devices, hb]
  · intro e hb
    simp [get_network_clients, hb]

/-- Witness for C1: against the always-raising client, the devices handler
returns the failure string for that exception. -/
theorem listing_handlers_catch_all_witness :
    (get_network_devices failClient "N_1").2 =
      Except.ok (PyValue.str "Failed to list devices for network N_1: boom") :=
  (listing_handlers_catch_all failClient "N_1").2.2.1 ⟨"boom"⟩ rfl

/-- C6: when the client returns an empty list, the devices handler returns
exactly "No devices found for network {id}." and the clients handler
exactly "No clients found for network {id}.". -/
theorem empty_listing_sentinels :
    ∀ (network_id : String),
      (get_network_devices (constClient (PyValue.list [])) network_id).2 =
        Except.ok (PyValue.str ("No devices found for network " ++ network_id ++ ".")) ∧
      (get_network_clients (constClient (PyValue.list [])) network_id).2 =
        Except.ok (PyValue.str ("No clients found for network " ++ network_id ++ ".")) :=
  fun _ => ⟨rfl, rfl⟩

/-- C7: invoking `update_network` without `name` and `tags` forwards the
declared defaults (`None`, `None`) to `client.update_network`, in a single
call carrying exactly the given network_id, and returns the client's result
unmodified. -/
theorem update_network_forwards_defaults :
    ∀ (client : ClientBehavior) (network_id : String),
      update_network_default client network_id =
        ([ClientCall.update_network network_id PyValue.none PyValue.none],
         client (ClientCall.update_network network_id PyValue.none PyValue.none)) :=
  fun _ _ => rfl

/-- C8: invoking `create_network` without an explicit `type` calls
`client.create_network` with the string "wireless" as the type, and returns
the client's result unmodified. -/
theorem create_network_default_type_wireless :
    ∀ (client : ClientBehavior) (organization_id name : String),
      create_network_default client organization_id name =
        ([ClientCall.create_network organization_id name "wireless"],
         client (ClientCall.create_network organization_id name "wireless")) :=
  fun _ _ _ => rfl

/-- C9: registering a second time with a different host and client raises
nothing (`register_network_tools` is total) and overwrites both stored
references, so every tool invoked afterwards dispatches against the second
client instance. -/
theorem register_twice_last_write_wins :
    ∀ (App : Type) (a1 a2 : App) (c1 c2 : ClientBehavior) (s : RegistryState App),
      (register_network_tools a2 c2 (register_network_tools a1 c1 s)).meraki_client
          = some c2 ∧
      (register_network_tools a2 c2 (register_network_tools a1 c1 s)).app = some a2 ∧
      ∀ t, invoke_tool (register_network_tools a2 c2 (register_network_tools a1 c1 s)) t
          = dispatch c2 t :=
  fun _ _ _ _ _ _ => ⟨rfl, rfl, fun _ => rfl⟩

/-- C4: on a non-empty sequence of device records, the devices handler
returns exactly the header "# Devices in Network ({id})", a blank line,
then one `specDeviceBlock` per device in the client's order (each block:
bold name and model line with fallbacks, indented serial/MAC code spans,
status line, location line only when lat and lng are both truthy, address
line only when address is truthy, and a trailing blank line). -/
theorem device_list_format :
    ∀ (network_id : String) (ds : List PyDict), ds ≠ [] →
      (get_network_devices (constClient (PyValue.list (ds.map PyValue.dict))) network_id).2 =
        Except.ok (PyValue.str
          ("# Devices in Network (" ++ network_id ++ ")\n\n" ++
           joinAll (ds.map specDeviceBlock))) := by
  intro network_id ds h
  obtain ⟨d, rest, rfl⟩ := List.exists_cons_of_ne_nil h
  have hfmt := formatDevices_dict_map (d :: rest)
  simp only [List.map_cons] at hfmt
  simp [get_network_devices, get_network_devices_body, constClient, pyIter, pyTruthy,
    hfmt]

/-- Witness for C4: the specification's example device renders as the
documented bullet block with no location or address line. -/
theorem device_list_format_witness :
    (get_network_devices
      (constClient (PyValue.list
        ([[("name", PyValue.str "AP1"), ("model", PyValue.str "MR36"),
           ("serial", PyValue.str "Q2XX"), ("mac", PyValue.str "aa:bb"),
           ("status", PyValue.str "online")]].map PyValue.dict))) "N_1").2 =
      Except.ok (PyValue.str
        "# Devices in Network (N_1)\n\n- **AP1** (Model: MR36)\n  - Serial: `Q2XX`\n  - MAC: `aa:bb`\n  - Status: online\n\n") :=
  device_list_format "N_1"
    [[("name", PyValue.str "AP1"), ("model", PyValue.str "MR36"),
      ("serial", PyValue.str "Q2XX"), ("mac", PyValue.str "aa:bb"),
      ("status", PyValue.str "online")]]
    (List.cons_ne_nil _ _)

/-- C5: on a non-empty sequence of client records (whose truthy usage
values are dicts, as in every record the API produces), the clients handler
returns exactly the header "# Clients in Network ({id})", a blank line,
then one `specClientBlock` per client in order (bold description, MAC/IP
code spans, VLAN and connection lines with fallbacks, a usage line only
when a usage object is present — missing sent/recv default to 0 — and a
trailing blank line). -/
theorem client_list_format :
    ∀ (network_id : String) (cs : List PyDict), cs ≠ [] →
      (∀ c ∈ cs, usageWF c = true) →
      (get_network_clients (constClient (PyValue.list (cs.map PyValue.dict))) network_id).2 =
        Except.ok (PyValue.str
          ("# Clients in Network (" ++ network_id ++ ")\n\n" ++
           joinAll (cs.map specClientBlock))) := by
  intro network_id cs h hwf
  obtain ⟨c, rest, rfl⟩ := List.exists_cons_of_ne_nil h
  have hfmt := formatClients_dict_map (c :: rest) hwf
  simp only [List.map_cons] at hfmt
  simp [get_network_clients, get_network_clients_body, constClient, pyIter, pyTruthy,
    hfmt]

/-- Witness for C5: the specification's example client record renders with
its usage line "100 sent, 200 received". -/
theorem client_list_format_witness :
    (get_network_clients
      (constClient (PyValue.list
        ([[("description", PyValue.str "Laptop"), ("mac", PyValue.str "11:22"),
           ("ip", PyValue.str "10.0.0.5"), ("vlan", PyValue.int 10),
           ("status", PyValue.str "Online"),
           ("usage", PyValue.dict [("sent", PyValue.int 100), ("recv", PyValue.int 200)])]].map
          PyValue.dict))) "N_1").2 =
      Except.ok (PyValue.str
        "# Clients in Network (N_1)\n\n- **Laptop**\n  - MAC: `11:22`\n  - IP: `10.0.0.5`\n  - VLAN: 10\n  - Connection: Online\n  - Usage: 100 sent, 200 received\n\n") :=
  client_list_format "N_1"
    [[("description", PyValue.str "Laptop"), ("mac", PyValue.str "11:22"),
      ("ip", PyValue.str "10.0.0.5"), ("vlan", PyValue.int 10),
      ("status", PyValue.str "Online"),
      ("usage", PyValue.dict [("sent", PyValue.int 100), ("recv", PyValue.int 200)])]]
    (List.cons_ne_nil _ _) (by decide)

/-- C10: the fallback strings stand in only for absent keys.  For a string
fallback, `dictGet r k (PyValue.str f) = PyValue.none` holds exactly when
`k` is present in `r` with value `None`.  For every device record in which
one of name, model, serial, mac, status is present with value `None` — all
other fields arbitrary — the device block renders the word "None" (the
interpolation of Python `None`) in that key's slot, never the fallback;
likewise for every client record and each of description, mac, ip, vlan,
status, across both usage branches. -/
theorem none_values_render_as_none :
    ∀ (d c : PyDict),
      (dictGet d "name" (PyValue.str "Unnamed") = PyValue.none →
       formatDeviceBlock (PyValue.dict d) = Except.ok
         (("- **" ++ "None" ++ "** (Model: " ++ pyStr (dictGet d "model" (PyValue.str "Unknown")) ++ ")\n") ++
          ("  - Serial: `" ++ pyStr (dictGet d "serial" (PyValue.str "Unknown")) ++ "`\n") ++
          ("  - MAC: `" ++ pyStr (dictGet d "mac" (PyValue.str "Unknown")) ++ "`\n") ++
          ("  - Status: " ++ pyStr (dictGet d "status" (PyValue.str "Unknown")) ++ "\n") ++
          (if pyTruthy (dictGet d "lat" PyValue.none) && pyTruthy (dictGet d "lng" PyValue.none) then
             "  - Location: (" ++ pyStr (dictGet d "lat" PyValue.none) ++ ", " ++
               pyStr (dictGet d "lng" PyValue.none) ++ ")\n"
           else "") ++
          (if pyTruthy (dictGet d "address" PyValue.none) then
             "  - Address: " ++ pyStr (dictGet d "address" PyValue.none) ++ "\n"
           else "") ++
          "\n")) ∧
      (dictGet d "model" (PyValue.str "Unknown") = PyValue.none →
       formatDeviceBlock (PyValue.dict d) = Except.ok
         (("- **" ++ pyStr (dictGet d "name" (PyValue.str "Unnamed")) ++ "** (Model: " ++ "None" ++ ")\n") ++
          ("  - Serial: `" ++ pyStr (dictGet d "serial" (PyValue.str "Unknown")) ++ "`\n") ++
          ("  - MAC: `" ++ pyStr (dictGet d "mac" (PyValue.str "Unknown")) ++ "`\n") ++
          ("  - Status: " ++ pyStr (dictGet d "status" (PyValue.str "Unknown")) ++ "\n") ++
          (if pyTruthy (dictGet d "lat" PyValue.none) && pyTruthy (dictGet d "lng" PyValue.none) then
             "  - Location: (" ++ pyStr (dictGet d "lat" PyValue.none) ++ ", " ++
               pyStr (dictGet d "lng" PyValue.none) ++ ")\n"
           else "") ++
          (if pyTruthy (dictGet d "address" PyValue.none) then
             "  - Address: " ++ pyStr (dictGet d "address" PyValue.none) ++ "\n"
           else "") ++
          "\n")) ∧
      (dictGet d "serial" (PyValue.str "Unknown") = PyValue.none →
       formatDeviceBlock (PyValue.dict d) = Except.ok
         (("- **" ++ pyStr (dictGet d "name" (PyValue.str "Unnamed")) ++ "** (Model: " ++ pyStr (dictGet d "model" (PyValue.str "Unknown")) ++ ")\n") ++
          ("  - Serial: `" ++ "None" ++ "`\n") ++
          ("  - MAC: `" ++ pyStr (dictGet d "mac" (PyValue.str "Unknown")) ++ "`\n") ++
          ("  - Status: " ++ pyStr (dictGet d "status" (PyValue.str "Unknown")) ++ "\n") ++
          (if pyTruthy (dictGet d "lat" PyValue.none) && pyTruthy (dictGet d "lng" PyValue.none) then
             "  - Location: (" ++ pyStr (dictGet d "lat" PyValue.none) ++ ", " ++
               pyStr (dictGet d "lng" PyValue.none) ++ ")\n"
           else "") ++
          (if pyTruthy (dictGet d "address" PyValue.none) then
             "  - Address: " ++ pyStr (dictGet d "address" PyValue.none) ++ "\n"
           else "") ++
          "\n")) ∧
      (dictGet d "mac" (PyValue.str "Unknown") = PyValue.none →
       formatDeviceBlock (PyValue.dict d) = Except.ok
         (("- **" ++ pyStr (dictGet d "name" (PyValue.str "Unnamed")) ++ "** (Model: " ++ pyStr (dictGet d "model" (PyValue.str "Unknown")) ++ ")\n") ++
          ("  - Serial: `" ++ pyStr (dictGet d "serial" (PyValue.str "Unknown")) ++ "`\n") ++
          ("  - MAC: `" ++ "None" ++ "`\n") ++
          ("  - Status: " ++ pyStr (dictGet d "status" (PyValue.str "Unknown")) ++ "\n") ++
          (if pyTruthy (dictGet d "lat" PyValue.none) && pyTruthy (dictGet d "lng" PyValue.none) then
             "  - Location: (" ++ pyStr (dictGet d "lat" PyValue.none) ++ ", " ++
               pyStr (dictGet d "lng" PyValue.none) ++ ")\n"
           else "") ++
          (if pyTruthy (dictGet d "address" PyValue.none) then
             "  - Address: " ++ pyStr (dictGet d "address" PyValue.none) ++ "\n"
           else "") ++
          "\n")) ∧
      (dictGet d "status" (PyValue.str "Unknown") = PyValue.none →
       formatDeviceBlock (PyValue.dict d) = Except.ok
         (("- **" ++ pyStr (dictGet d "name" (PyValue.str "Unnamed")) ++ "** (Model: " ++ pyStr (dictGet d "model" (PyValue.str "Unknown")) ++ ")\n") ++
          ("  - Serial: `" ++ pyStr (dictGet d "serial" (PyValue.str "Unknown")) ++ "`\n") ++
          ("  - MAC: `" ++ pyStr (dictGet d "mac" (PyValue.str "Unknown")) ++ "`\n") ++
          ("  - Status: " ++ "None" ++ "\n") ++
          (if pyTruthy (dictGet d "lat" PyValue.none) && pyTruthy (dictGet d "lng" PyValue.none) then
             "  - Location: (" ++ pyStr (dictGet d "lat" PyValue.none) ++ ", " ++
               pyStr (dictGet d "lng" PyValue.none) ++ ")\n"
           else "") ++
          (if pyTruthy (dictGet d "address" PyValue.none) then
             "  - Address: " ++ pyStr (dictGet d "address" PyValue.none) ++ "\n"
           else "") ++
          "\n")) ∧
      (dictGet c "description" (PyValue.str "Unknown Device") = PyValue.none →
       formatClientBlock (PyValue.dict c) =
         (if pyTruthy (dictGet c "usage" PyValue.none) then
            if pyIsDict (dictGet c "usage" PyValue.none) then
              Except.ok
                (("- **" ++ "None" ++ "**\n") ++
                 ("  - MAC: `" ++ pyStr (dictGet c "mac" (PyValue.str "Unknown")) ++ "`\n") ++
                 ("  - IP: `" ++ pyStr (dictGet c "ip" (PyValue.str "Unknown")) ++ "`\n") ++
                 ("  - VLAN: " ++ pyStr (dictGet c "vlan" (PyValue.str "Unknown")) ++ "\n") ++
                 ("  - Connection: " ++ pyStr (dictGet c "status" (PyValue.str "Unknown")) ++ "\n") ++
                 ("  - Usage: " ++
                    pyStr (dictGet (pyAsDict (dictGet c "usage" PyValue.none)) "sent" (PyValue.int 0)) ++
                    " sent, " ++
                    pyStr (dictGet (pyAsDict (dictGet c "usage" PyValue.none)) "recv" (PyValue.int 0)) ++
                    " received\n") ++ "\n")
            else Except.error (noGetAttrErr (dictGet c "usage" PyValue.none))
          else
            Except.ok
              (("- **" ++ "None" ++ "**\n") ++
               ("  - MAC: `" ++ pyStr (dictGet c "mac" (PyValue.str "Unknown")) ++ "`\n") ++
               ("  - IP: `" ++ pyStr (dictGet c "ip" (PyValue.str "Unknown")) ++ "`\n") ++
               ("  - VLAN: " ++ pyStr (dictGet c "vlan" (PyValue.str "Unknown")) ++ "\n") ++
               ("  - Connection: " ++ pyStr (dictGet c "status" (PyValue.str "Unknown")) ++ "\n") ++
               "\n"))) ∧
      (dictGet c "mac" (PyValue.str "Unknown") = PyValue.none →
       formatClientBlock (PyValue.dict c) =
         (if pyTruthy (dictGet c "usage" PyValue.none) then
            if pyIsDict (dictGet c "usage" PyValue.none) then
              Except.ok
                (("- **" ++ pyStr (dictGet c "description" (PyValue.str "Unknown Device")) ++ "**\n") ++
                 ("  - MAC: `" ++ "None" ++ "`\n") ++
                 ("  - IP: `" ++ pyStr (dictGet c "ip" (PyValue.str "Unknown")) ++ "`\n") ++
                 ("  - VLAN: " ++ pyStr (dictGet c "vlan" (PyValue.str "Unknown")) ++ "\n") ++
                 ("  - Connection: " ++ pyStr (dictGet c "status" (PyValue.str "Unknown")) ++ "\n") ++
                 ("  - Usage: " ++
                    pyStr (dictGet (pyAsDict (dictGet c "usage" PyValue.none)) "sent" (PyValue.int 0)) ++
                    " sent, " ++
                    pyStr (dictGet (pyAsDict (dictGet c "usage" PyValue.none)) "recv" (PyValue.int 0)) ++
                    " received\n") ++ "\n")
            else Except.error (noGetAttrErr (dictGet c "usage" PyValue.none))
          else
            Except.ok
              (("- **" ++ pyStr (dictGet c "description" (PyValue.str "Unknown Device")) ++ "**\n") ++
               ("  - MAC: `" ++ "None" ++ "`\n") ++
               ("  - IP: `" ++ pyStr (dictGet c "ip" (PyValue.str "Unknown")) ++ "`\n") ++
               ("  - VLAN: " ++ pyStr (dictGet c "vlan" (PyValue.str "Unknown")) ++ "\n") ++
               ("  - Connection: " ++ pyStr (dictGet c "status" (PyValue.str "Unknown")) ++ "\n") ++
               "\n"))) ∧
      (dictGet c "ip" (PyValue.str "Unknown") = PyValue.none →
       formatClientBlock (PyValue.dict c) =
         (if pyTruthy (dictGet c "usage" PyValue.none) then
            if pyIsDict (dictGet c "usage" PyValue.none) then
              Except.ok
                (("- **" ++ pyStr (dictGet c "description" (PyValue.str "Unknown Device")) ++ "**\n") ++
                 ("  - MAC: `" ++ pyStr (dictGet c "mac" (PyValue.str "Unknown")) ++ "`\n") ++
                 ("  - IP: `" ++ "None" ++ "`\n") ++
                 ("  - VLAN: " ++ pyStr (dictGet c "vlan" (PyValue.str "Unknown")) ++ "\n") ++
                 ("  - Connection: " ++ pyStr (dictGet c "status" (PyValue.str "Unknown")) ++ "\n") ++
                 ("  - Usage: " ++
                    pyStr (dictGet (pyAsDict (dictGet c "usage" PyValue.none)) "sent" (PyValue.int 0)) ++
                    " sent, " ++
                    pyStr (dictGet (pyAsDict (dictGet c "usage" PyValue.none)) "recv" (PyValue.int 0)) ++
                    " received\n") ++ "\n")
            else Except.error (noGetAttrErr (dictGet c "usage" PyValue.none))
          else
            Except.ok
              (("- **" ++ pyStr (dictGet c "description" (PyValue.str "Unknown Device")) ++ "**\n") ++
               ("  - MAC: `" ++ pyStr (dictGet c "mac" (PyValue.str "Unknown")) ++ "`\n") ++
               ("  - IP: `" ++ "None" ++ "`\n") ++
               ("  - VLAN: " ++ pyStr (dictGet c "vlan" (PyValue.str "Unknown")) ++ "\n") ++
               ("  - Connection: " ++ pyStr (dictGet c "status" (PyValue.str "Unknown")) ++ "\n") ++
               "\n"))) ∧
      (dictGet c "vlan" (PyValue.str "Unknown") = PyValue.none →
       formatClientBlock (PyValue.dict c) =
         (if pyTruthy (dictGet c "usage" PyValue.none) then
            if pyIsDict (dictGet c "usage" PyValue.none) then
              Except.ok
                (("- **" ++ pyStr (dictGet c "description" (PyValue.str "Unknown Device")) ++ "**\n") ++
                 ("  - MAC: `" ++ pyStr (dictGet c "mac" (PyValue.str "Unknown")) ++ "`\n") ++
                 ("  - IP: `" ++ pyStr (dictGet c "ip" (PyValue.str "Unknown")) ++ "`\n") ++
                 ("  - VLAN: " ++ "None" ++ "\n") ++
                 ("  - Connection: " ++ pyStr (dictGet c "status" (PyValue.str "Unknown")) ++ "\n") ++
                 ("  - Usage: " ++
                    pyStr (dictGet (pyAsDict (dictGet c "usage" PyValue.none)) "sent" (PyValue.int 0)) ++
                    " sent, " ++
                    pyStr (dictGet (pyAsDict (dictGet c "usage" PyValue.none)) "recv" (PyValue.int 0)) ++
                    " received\n") ++ "\n")
            else Except.error (noGetAttrErr (dictGet c "usage" PyValue.none))
          else
            Except.ok
              (("- **" ++ pyStr (dictGet c "description" (PyValue.str "Unknown Device")) ++ "**\n") ++
               ("  - MAC: `" ++ pyStr (dictGet c "mac" (PyValue.str "Unknown")) ++ "`\n") ++
               ("  - IP: `" ++ pyStr (dictGet c "ip" (PyValue.str "Unknown")) ++ "`\n") ++
               ("  - VLAN: " ++ "None" ++ "\n") ++
               ("  - Connection: " ++ pyStr (dictGet c "status" (PyValue.str "Unknown")) ++ "\n") ++
               "\n"))) ∧
      (dictGet c "status" (PyValue.str "Unknown") = PyValue.none →
       formatClientBlock (PyValue.dict c) =
         (if pyTruthy (dictGet c "usage" PyValue.none) then
            if pyIsDict (dictGet c "usage" PyValue.none) then
              Except.ok
                (("- **" ++ pyStr (dictGet c "description" (PyValue.str "Unknown Device")) ++ "**\n") ++
                 ("  - MAC: `" ++ pyStr (dictGet c "mac" (PyValue.str "Unknown")) ++ "`\n") ++
                 ("  - IP: `" ++ pyStr (dictGet c "ip" (PyValue.str "Unknown")) ++ "`\n") ++
                 ("  - VLAN: " ++ pyStr (dictGet c "vlan" (PyValue.str "Unknown")) ++ "\n") ++
                 ("  - Connection: " ++ "None" ++ "\n") ++
                 ("  - Usage: " ++
                    pyStr (dictGet (pyAsDict (dictGet c "usage" PyValue.none)) "sent" (PyValue.int 0)) ++
                    " sent, " ++
                    pyStr (dictGet (pyAsDict (dictGet c "usage" PyValue.none)) "recv" (PyValue.int 0)) ++
                    " received\n") ++ "\n")
            else Except.error (noGetAttrErr (dictGet c "usage" PyValue.none))
          else
            Except.ok
              (("- **" ++ pyStr (dictGet c "description" (PyValue.str "Unknown Device")) ++ "**\n") ++
               ("  - MAC: `" ++ pyStr (dictGet c "mac" (PyValue.str "Unknown")) ++ "`\n") ++
               ("  - IP: `" ++ pyStr (dictGet c "ip" (PyValue.str "Unknown")) ++ "`\n") ++
               ("  - VLAN: " ++ pyStr (dictGet c "vlan" (PyValue.str "Unknown")) ++ "\n") ++
               ("  - Connection: " ++ "None" ++ "\n") ++
               "\n"))) := by
  intro d c
  refine ⟨?_, ?_, ?_, ?_, ?_, ?_, ?_, ?_, ?_, ?_⟩
  · intro h
    simp [formatDeviceBlock, h, pyStr]
  · intro h
    simp [formatDeviceBlock, h, pyStr]
  · intro h
    simp [formatDeviceBlock, h, pyStr]
  · intro h
    simp [formatDeviceBlock, h, pyStr]
  · intro h
    simp [formatDeviceBlock, h, pyStr]
  · intro h
    cases hu : dictGet c "usage" PyValue.none <;>
      simp [formatClientBlock, hu, h, pyStr, pyIsDict, pyAsDict]
  · intro h
    cases hu : dictGet c "usage" PyValue.none <;>
      simp [formatClientBlock, hu, h, pyStr, pyIsDict, pyAsDict]
  · intro h
    cases hu : dictGet c "usage" PyValue.none <;>
      simp [formatClientBlock, hu, h, pyStr, pyIsDict, pyAsDict]
  · intro h
    cases hu : dictGet c "usage" PyValue.none <;>
      simp [formatClientBlock, hu, h, pyStr, pyIsDict, pyAsDict]
  · intro h
    cases hu : dictGet c "usage" PyValue.none <;>
      simp [formatClientBlock, hu, h, pyStr, pyIsDict, pyAsDict]

/-- Witness for C10: mixed records exercise single `None`-valued keys with
the other fields present or absent.  A device with `None` name but model
"MR36" renders "- **None** (Model: MR36)"; a device with name "AP1" but
`None` model renders "- **AP1** (Model: None)"; a client with `None` vlan
renders "  - VLAN: None"; a client with `None` description and a usage
object renders "- **None**" with its usage line. -/
theorem none_values_render_as_none_witness :
    formatDeviceBlock (PyValue.dict [("name", PyValue.none), ("model", PyValue.str "MR36")]) =
      Except.ok
        "- **None** (Model: MR36)\n  - Serial: `Unknown`\n  - MAC: `Unknown`\n  - Status: Unknown\n\n" ∧
    formatDeviceBlock (PyValue.dict [("name", PyValue.str "AP1"), ("model", PyValue.none)]) =
      Except.ok
        "- **AP1** (Model: None)\n  - Serial: `Unknown`\n  - MAC: `Unknown`\n  - Status: Unknown\n\n" ∧
    formatClientBlock (PyValue.dict [("description", PyValue.str "Laptop"), ("vlan", PyValue.none)]) =
      Except.ok
        "- **Laptop**\n  - MAC: `Unknown`\n  - IP: `Unknown`\n  - VLAN: None\n  - Connection: Unknown\n\n" ∧
    formatClientBlock (PyValue.dict
        [("description", PyValue.none), ("usage", PyValue.dict [("sent", PyValue.int 5)])]) =
      Except.ok
        "- **None**\n  - MAC: `Unknown`\n  - IP: `Unknown`\n  - VLAN: Unknown\n  - Connection: Unknown\n  - Usage: 5 sent, 0 received\n\n" :=
  ⟨(none_values_render_as_none [("name", PyValue.none), ("model", PyValue.str "MR36")] []).1 rfl,
   (none_values_render_as_none [("name", PyValue.str "AP1"), ("model", PyValue.none)] []).2.1 rfl,
   (none_values_render_as_none []
      [("description", PyValue.str "Laptop"), ("vlan", PyValue.none)]).2.2.2.2.2.2.2.2.1 rfl,
   (none_values_render_as_none []
      [("description", PyValue.none),
       ("usage", PyValue.dict [("sent", PyValue.int 5)])]).2.2.2.2.2.1 rfl⟩
